import Mathlib

/-!
Shallow embedding of the doc-manager backend's credential lifecycle and
authorization code, and proofs checking the specification's claims against it.

Sources embedded:
- entities: `user.entity.ts`, `role.entity.ts`, `permission.entity.ts`
- `AuthService` (`validateUser`, `login`, `generateAccessToken`,
  `generateRefreshToken`, `refreshAccessToken`, `getUserById`)
- `AuthController` (`login`, `logout`)
- `JwtStrategy.validate`
- `UsersService.updateProfile`
- the frontend `hasPermission` check in `sidebar.tsx`

Modelling conventions:
- Machine integers: ids and timestamps are `Nat` (no arithmetic overflow is
  relevant to any claim).
- bcrypt: `bcrypt.compare(password, hash)` is an abstract boolean function
  carried in the environment (`AuthEnv.bcryptCompare`); nothing about its
  internals is assumed.
- JWTs are modelled symbolically: a signed token is its payload plus the key
  it was signed with; `jwtVerify` succeeds iff the key equals the verifier
  secret and the `exp` claim (when present) lies in the future.  This models
  signature validity and expiry checking of `jsonwebtoken`.
- TypeORM `findOne` on an entity with a `DeleteDateColumn` excludes
  soft-deleted rows, so the lookup helpers filter `deletedAt = none`.
- Exceptions are `Except` values: `UnauthorizedException` (401),
  `NotFoundException` (404), `ConflictException` (409).
-/

namespace DocManager

/-- `permission.entity.ts`. -/
structure Permission where
  id : Nat
  name : String
  displayName : String
  description : Option String
  module : String
  isActive : Bool
  deriving Repr, DecidableEq, Inhabited

/-- `role.entity.ts`; `permissions` is the eagerly loaded many-to-many list. -/
structure Role where
  id : Nat
  name : String
  displayName : String
  description : Option String
  isActive : Bool
  permissions : List Permission
  deriving Repr, DecidableEq, Inhabited

/-- `users.status` enum column. -/
inductive UserStatus
  | active
  | inactive
  | suspended
  | pending
  deriving Repr, DecidableEq, Inhabited

/-- `user.entity.ts`; `password` holds the bcrypt hash, `role` the eagerly
loaded relation, `deletedAt` the soft-delete marker. -/
structure User where
  id : Nat
  firstName : String
  lastName : String
  email : String
  password : String
  profileImage : Option String
  status : UserStatus
  role : Option Role
  createdAt : Nat
  updatedAt : Nat
  deletedAt : Option Nat
  deriving Repr, DecidableEq, Inhabited

/-- The users table. -/
structure Db where
  users : List User
  deriving Repr, DecidableEq, Inhabited

/-- `userRepository.findOne({where: {email}})`: TypeORM excludes soft-deleted
rows by default. -/
def Db.findByEmail (db : Db) (email : String) : Option User :=
  db.users.find? (fun u => u.deletedAt.isNone && u.email == email)

/-- `userRepository.findOne({where: {id}})`, soft-deleted rows excluded. -/
def Db.findById (db : Db) (id : Nat) : Option User :=
  db.users.find? (fun u => u.deletedAt.isNone && u.id == id)

/-- Exception taxonomy used by the embedded code. -/
inductive HttpError
  | unauthenticated
  | notFound
  | conflict
  deriving Repr, DecidableEq, Inhabited

/-- `role` claim of the access token: `{id: user.role.id, name: user.role.name}`. -/
structure RoleClaim where
  id : Nat
  name : String
  deriving Repr, DecidableEq, Inhabited

/-- `JwtPayload` from `jwt-payload.interface.ts`; `role` is absent
(`undefined`, dropped on serialization) when the user has no role. -/
structure JwtPayload where
  sub : Nat
  email : String
  role : Option RoleClaim
  permissions : List String
  iat : Option Nat
  exp : Option Nat
  deriving Repr, DecidableEq, Inhabited

/-- `RefreshTokenPayload` from `jwt-payload.interface.ts`. -/
structure RefreshTokenPayload where
  sub : Nat
  sessionId : String
  iat : Option Nat
  exp : Option Nat
  deriving Repr, DecidableEq, Inhabited

/-- A signed JWT, modelled symbolically as its payload plus the key it was
signed with. -/
structure SignedToken (P : Type) where
  payload : P
  signedWith : String
  deriving Repr, DecidableEq, Inhabited

/-- Environment of `AuthService`: the bcrypt comparison oracle, the JWT
secret, the configured token lifetimes, the current time, and the fresh
session id that `generateRefreshToken` would build from `Date.now()` and
`Math.random()`. -/
structure AuthEnv where
  bcryptCompare : String → String → Bool
  secret : String
  accessExpiry : Nat
  refreshExpiry : Nat
  now : Nat
  freshSessionId : String

/-- `jwtService.verify`: accepts iff the token was signed with the configured
secret and its `exp` claim (when present) has not passed. -/
def jwtVerify {P : Type} (expOf : P → Option Nat) (env : AuthEnv)
    (t : SignedToken P) : Option P :=
  if t.signedWith == env.secret
      && (match expOf t.payload with
          | none => true
          | some e => decide (env.now < e)) then
    some t.payload
  else
    none

/-- The permission extraction appearing verbatim at `AuthService.login`
(lines 50-52) and `AuthService.refreshAccessToken` (lines 120-122):
`user.role?.permissions?.filter((p) => p.isActive).map((p) => p.name) || []`.
Note it filters on `p.isActive` only. -/
def resolvePermissions (user : User) : List String :=
  match user.role with
  | none => []
  | some r => (r.permissions.filter (fun p => p.isActive)).map (fun p => p.name)

/-- `AuthService.generateAccessToken`: payload `{sub, email, role?, permissions}`;
`jwtService.sign` adds `iat = now` and `exp = now + accessExpiry`. -/
def generateAccessToken (env : AuthEnv) (user : User)
    (permissions : List String) : SignedToken JwtPayload :=
  { payload :=
      { sub := user.id
        email := user.email
        role := user.role.map (fun r => { id := r.id, name := r.name })
        permissions := permissions
        iat := some env.now
        exp := some (env.now + env.accessExpiry) }
    signedWith := env.secret }

/-- `AuthService.generateRefreshToken`: payload `{sub, sessionId}`, signed with
the same secret, `expiresIn` the refresh lifetime. -/
def generateRefreshToken (env : AuthEnv) (user : User) :
    SignedToken RefreshTokenPayload :=
  { payload :=
      { sub := user.id
        sessionId := env.freshSessionId
        iat := some env.now
        exp := some (env.now + env.refreshExpiry) }
    signedWith := env.secret }

/-- `AuthService.validateUser`: lookup by email, then status check, then
bcrypt comparison; each failure is `UnauthorizedException`. -/
def validateUser (env : AuthEnv) (db : Db) (email password : String) :
    Except HttpError User :=
  match db.findByEmail email with
  | none => .error .unauthenticated
  | some user =>
    if user.status ≠ UserStatus.active then .error .unauthenticated
    else if !(env.bcryptCompare password user.password) then
      .error .unauthenticated
    else .ok user

/-- The `role` object of the login response body. -/
structure RoleView where
  id : Nat
  name : String
  displayName : String
  deriving Repr, DecidableEq, Inhabited

/-- The `user` object of the login response body. -/
structure UserView where
  id : Nat
  email : String
  firstName : String
  lastName : String
  profileImage : Option String
  role : Option RoleView
  permissions : List String
  deriving Repr, DecidableEq, Inhabited

/-- `result.data` of `AuthService.login`. -/
structure LoginData where
  accessToken : SignedToken JwtPayload
  refreshToken : SignedToken RefreshTokenPayload
  user : UserView
  deriving Repr, DecidableEq, Inhabited

/-- `AuthService.login`. -/
def login (env : AuthEnv) (db : Db) (email password : String) :
    Except HttpError LoginData :=
  match validateUser env db email password with
  | .error e => .error e
  | .ok user =>
    let permissions := resolvePermissions user
    .ok
      { accessToken := generateAccessToken env user permissions
        refreshToken := generateRefreshToken env user
        user :=
          { id := user.id
            email := user.email
            firstName := user.firstName
            lastName := user.lastName
            profileImage := user.profileImage
            role := user.role.map (fun r =>
              { id := r.id, name := r.name, displayName := r.displayName })
            permissions := permissions } }

/-- `AuthService.refreshAccessToken`: verify the refresh JWT, load the user
by `payload.sub`, require status `active`, re-resolve permissions and issue a
new access token; every failure (including any exception caught by the
enclosing `try`) is `UnauthorizedException('Invalid refresh token')`.  The
method consults no session store (none exists) and performs no repository
write. -/
def refreshAccessToken (env : AuthEnv) (db : Db)
    (t : SignedToken RefreshTokenPayload) :
    Except HttpError (SignedToken JwtPayload) :=
  match jwtVerify (fun p => p.exp) env t with
  | none => .error .unauthenticated
  | some payload =>
    match db.findById payload.sub with
    | none => .error .unauthenticated
    | some user =>
      if user.status ≠ UserStatus.active then .error .unauthenticated
      else .ok (generateAccessToken env user (resolvePermissions user))

/-- One refresh call seen as a state transition: the body of
`refreshAccessToken` contains only repository reads (`findOne`) and JWT
operations — no `save`/`update`/`delete` — so the database state after the
call equals the state before it. -/
def refreshCall (env : AuthEnv) (db : Db)
    (t : SignedToken RefreshTokenPayload) :
    Except HttpError (SignedToken JwtPayload) × Db :=
  (refreshAccessToken env db t, db)

/-- `AuthService.getUserById`: `NotFoundException` when absent. -/
def getUserById (db : Db) (id : Nat) : Except HttpError User :=
  match db.findById id with
  | none => .error .notFound
  | some u => .ok u

/-- `sameSite` values the controller actually produces. -/
inductive SameSite
  | strict
  | lax
  deriving Repr, DecidableEq, Inhabited

/-- The cookie options passed to `response.cookie` in `AuthController.login`. -/
structure CookieOptions where
  httpOnly : Bool
  secure : Bool
  sameSite : SameSite
  maxAgeMs : Nat
  deriving Repr, DecidableEq, Inhabited

/-- A `Set-Cookie` emitted by the controller. -/
structure SetCookie where
  name : String
  value : SignedToken RefreshTokenPayload
  options : CookieOptions
  deriving Repr, DecidableEq, Inhabited

/-- JSON body of a successful `POST /auth/login`: the controller destructures
`refreshToken` out of `result.data`, so the body is exactly
`{accessToken, user}`. -/
structure LoginBody where
  accessToken : SignedToken JwtPayload
  user : UserView
  deriving Repr, DecidableEq, Inhabited

/-- `AuthController.login`: calls the service, sets the `refreshToken` cookie
with `httpOnly: true`, `secure: NODE_ENV === 'production'`,
`sameSite: production ? 'strict' : 'lax'`, `maxAge: 7 days`, and returns the
body without the refresh token. -/
def controllerLogin (env : AuthEnv) (db : Db) (production : Bool)
    (email password : String) : Except HttpError (LoginBody × SetCookie) :=
  match login env db email password with
  | .error e => .error e
  | .ok d =>
    .ok
      ({ accessToken := d.accessToken, user := d.user },
       { name := "refreshToken"
         value := d.refreshToken
         options :=
           { httpOnly := true
             secure := production
             sameSite := if production then .strict else .lax
             maxAgeMs := 7 * 24 * 60 * 60 * 1000 } })

/-- Response of `POST /auth/logout`. -/
structure LogoutResponse where
  status : Nat
  clearedCookie : Option String
  message : String
  deriving Repr, DecidableEq, Inhabited

/-- `AuthController.logout`: clears the `refreshToken` cookie and returns
`200 {message}`.  The method body calls no service and touches no stored
state, so the database is returned unchanged. -/
def controllerLogout (db : Db) : LogoutResponse × Db :=
  ({ status := 200
     clearedCookie := some "refreshToken"
     message := "Logged out successfully" },
   db)

/-- The request-user object attached by `JwtStrategy.validate`. -/
structure RequestUser where
  id : Nat
  email : String
  role : Option RoleClaim
  permissions : List String
  deriving Repr, DecidableEq, Inhabited

/-- `JwtStrategy.validate`: re-loads the user via `authService.getUserById`
(which throws `NotFoundException` when absent), rejects non-active users with
`UnauthorizedException`, and returns the user object with the permissions
taken from the JWT payload, not from the database. -/
def jwtStrategyValidate (db : Db) (payload : JwtPayload) :
    Except HttpError RequestUser :=
  match getUserById db payload.sub with
  | .error e => .error e
  | .ok user =>
    if user.status ≠ UserStatus.active then .error .unauthenticated
    else
      .ok
        { id := payload.sub
          email := payload.email
          role := payload.role
          permissions := payload.permissions }

/-- `required.split('.')[0]`: the maximal prefix of the key before its first
dot (the whole key when it has no dot), embedded directly as a character
`takeWhile`. -/
def resourceOf (k : String) : String :=
  String.mk (k.toList.takeWhile (fun c => !(c == '.')))

/-- `hasPermission` from `sidebar.tsx`: the guard `if (!required) return true`
fires on every falsy value, i.e. both on `undefined` (no required key) and on
the empty string; then global wildcard, exact match, and `resource + ".*"`
where `resource` is `required.split('.')[0]` (see `resourceOf`). -/
def hasPermission (permissions : List String) (required : Option String) :
    Bool :=
  match required with
  | none => true
  | some required =>
    if required == "" then true
    else if permissions.contains "*" then true
    else if permissions.contains required then true
    else
      let resource := resourceOf required
      if permissions.contains (resource ++ ".*") then true
      else false

/-- `UpdateProfileDto`: all three fields optional. -/
structure UpdateProfileDto where
  firstName : Option String
  lastName : Option String
  email : Option String
  deriving Repr, DecidableEq, Inhabited

/-- JavaScript truthiness of the optional string `updateProfileDto.email`:
`undefined` and the empty string are falsy. -/
def truthyStr : Option String → Bool
  | none => false
  | some s => !(s == "")

/-- `UsersService.updateProfile`: load the user (404 when absent); when a
truthy `dto.email` differs from the user's and `findOne({where: {email}})`
finds a row, throw `ConflictException` before any mutation; otherwise assign
each dto field that is not `undefined`, save (which also refreshes the
`UpdateDateColumn` `updatedAt`), and reload by id.  `save` updates the row
with the entity's primary key, modelled as replacing every stored user with
that id.  The returned `Db` is the store after the call (unchanged on every
error path). -/
def updateProfile (db : Db) (now : Nat) (userId : Nat)
    (dto : UpdateProfileDto) : Except HttpError User × Db :=
  match db.findById userId with
  | none => (.error .notFound, db)
  | some user =>
    if truthyStr dto.email && !(dto.email == some user.email)
        && (db.findByEmail (dto.email.getD "")).isSome then
      (.error .conflict, db)
    else
      let user' : User :=
        { user with
          firstName := dto.firstName.getD user.firstName
          lastName := dto.lastName.getD user.lastName
          email := dto.email.getD user.email
          updatedAt := now }
      let db' : Db :=
        { users := db.users.map (fun v => if v.id == user'.id then user' else v) }
      match db'.findById userId with
      | none => (.error .notFound, db')
      | some u => (.ok u, db')

/-- `Except.isOk` spelled out for the embedded services. -/
def exceptOk {ε α : Type} : Except ε α → Bool
  | .ok _ => true
  | .error _ => false

/-! Concrete instances used to evaluate the embedded code on specific inputs. -/

/-- An active permission of the `documents` module. -/
def permDocsView : Permission :=
  { id := 11, name := "documents.view", displayName := "View documents"
    description := none, module := "documents", isActive := true }

/-- An active role holding `permDocsView`. -/
def roleStaff : Role :=
  { id := 3, name := "staff", displayName := "Staff", description := none
    isActive := true, permissions := [permDocsView] }

/-- An active user with the active role `roleStaff`. -/
def alice : User :=
  { id := 1, firstName := "Alice", lastName := "A"
    email := "alice@example.com", password := "hash-alice"
    profileImage := none, status := .active, role := some roleStaff
    createdAt := 0, updatedAt := 0, deletedAt := none }

/-- A store holding only `alice`. -/
def db1 : Db := { users := [alice] }

/-- Environment: the only password matching `alice`'s stored hash is
`pw-alice`. -/
def env1 : AuthEnv :=
  { bcryptCompare := fun p h => p == "pw-alice" && h == "hash-alice"
    secret := "jwt-secret", accessExpiry := 900, refreshExpiry := 604800
    now := 1000, freshSessionId := "session-1700000000000-abc123" }

/-- The refresh token issued to `alice` by a login under `env1`. -/
def rt1 : SignedToken RefreshTokenPayload := generateRefreshToken env1 alice

/-- An active permission held by an inactive role. -/
def permDocsEdit : Permission :=
  { id := 12, name := "documents.edit", displayName := "Edit documents"
    description := none, module := "documents", isActive := true }

/-- A deactivated role (`isActive = false`) still holding an active
permission. -/
def roleDisabled : Role :=
  { id := 4, name := "managers", displayName := "Managers", description := none
    isActive := false, permissions := [permDocsEdit] }

/-- An active user whose role is deactivated. -/
def mallory : User :=
  { id := 2, firstName := "Mallory", lastName := "M"
    email := "mallory@example.com", password := "hash-m"
    profileImage := none, status := .active, role := some roleDisabled
    createdAt := 0, updatedAt := 0, deletedAt := none }

/-- A store holding only `mallory`. -/
def db2 : Db := { users := [mallory] }

/-- Environment for `mallory`'s credentials. -/
def env2 : AuthEnv :=
  { bcryptCompare := fun p h => p == "pw-m" && h == "hash-m"
    secret := "jwt-secret", accessExpiry := 900, refreshExpiry := 604800
    now := 1000, freshSessionId := "session-1700000000001-def456" }

/-- A validly signed, unexpired refresh token whose `sessionId` was never
issued by any login. -/
def rt4 : SignedToken RefreshTokenPayload :=
  { payload :=
      { sub := 1, sessionId := "never-issued-session"
        iat := some 0, exp := some 999999 }
    signedWith := "jwt-secret" }

/-- The login body and cookie produced for `alice` with
`NODE_ENV = production`. -/
def c7pair : LoginBody × SetCookie :=
  (controllerLogin env1 db1 true "alice@example.com" "pw-alice").toOption.getD
    default

/-- An active user without any role. -/
def carol : User :=
  { id := 5, firstName := "Carol", lastName := "C"
    email := "carol@example.com", password := "hash-c"
    profileImage := none, status := .active, role := none
    createdAt := 0, updatedAt := 0, deletedAt := none }

/-- A store holding only `carol`. -/
def db8 : Db := { users := [carol] }

/-- Environment for `carol`'s credentials. -/
def env8 : AuthEnv :=
  { bcryptCompare := fun p h => p == "pw-c" && h == "hash-c"
    secret := "jwt-secret", accessExpiry := 900, refreshExpiry := 604800
    now := 2000, freshSessionId := "session-1700000000002-ghi789" }

/-- The login data produced for `alice` under `env1`. -/
def loginData1 : LoginData :=
  (login env1 db1 "alice@example.com" "pw-alice").toOption.getD default

/-- An access-token payload whose subject is stored in no database. -/
def ghostPayload : JwtPayload :=
  { sub := 99, email := "ghost@example.com", role := none
    permissions := ["documents.view"], iat := some 0, exp := some 999999 }

/-- An access-token payload for `alice` carrying a permission snapshot that
does not match her database permissions. -/
def stalePayload : JwtPayload :=
  { sub := 1, email := "alice@example.com"
    role := some { id := 3, name := "staff" }
    permissions := ["stale.permission"], iat := some 0, exp := some 999999 }

/-- A user with every optional field populated, to observe the frame of
`updateProfile`. -/
def dave : User :=
  { id := 10, firstName := "Dave", lastName := "D"
    email := "dave@example.com", password := "hash-d"
    profileImage := some "img.png", status := .active, role := some roleStaff
    createdAt := 50, updatedAt := 60, deletedAt := none }

/-- A second user whose record must stay untouched by `dave`'s update. -/
def erin : User :=
  { id := 11, firstName := "Erin", lastName := "E"
    email := "erin@example.com", password := "hash-e"
    profileImage := none, status := .pending, role := none
    createdAt := 51, updatedAt := 61, deletedAt := none }

/-- A store holding `dave` and `erin`. -/
def db10 : Db := { users := [dave, erin] }

/-- A profile update changing first name and email, leaving last name absent. -/
def dto10 : UpdateProfileDto :=
  { firstName := some "David", lastName := none
    email := some "dave2@example.com" }

/-- The record expected for `dave` after applying `dto10` at time 77. -/
def updExpected : User :=
  { dave with
    firstName := "David"
    email := "dave2@example.com"
    updatedAt := 77 }

/-- The store expected after `dave`'s update. -/
def db10' : Db := { users := [updExpected, erin] }

/-- C1: the claim says a refresh exchange rotates the refresh token and
invalidates the prior session generation so that the same refresh token is
never accepted twice.  `AuthService.refreshAccessToken` keeps no session
state and performs no write: the refresh token issued to `alice` at login is
accepted by a first refresh call, the store is unchanged by that call, and a
second refresh call presenting the same original token is accepted again. -/
theorem refresh_token_reuse_accepted_twice :
    Except.map (fun d => d.refreshToken)
        (login env1 db1 "alice@example.com" "pw-alice") = .ok rt1 ∧
    exceptOk (refreshCall env1 db1 rt1).1 = true ∧
    (refreshCall env1 db1 rt1).2 = db1 ∧
    exceptOk (refreshCall env1 (refreshCall env1 db1 rt1).2 rt1).1 = true :=
  ⟨rfl, rfl, rfl, rfl⟩

/-- C2: the claim says permission resolution filters on `role.active` and
`permission.active`, so an inactive role resolves to the empty set.  The
extraction in `login` and `refreshAccessToken` filters only on
`permission.isActive`: `mallory`'s role is deactivated, yet her resolved set,
the permission snapshot embedded at login, and the one embedded at refresh
all contain `documents.edit`. -/
theorem inactive_role_still_grants :
    mallory.role.map Role.isActive = some false ∧
    resolvePermissions mallory = ["documents.edit"] ∧
    Except.map (fun d => d.accessToken.payload.permissions)
        (login env2 db2 "mallory@example.com" "pw-m") = .ok ["documents.edit"] ∧
    Except.map (fun t => t.payload.permissions)
        (refreshAccessToken env2 db2 (generateRefreshToken env2 mallory))
      = .ok ["documents.edit"] :=
  ⟨rfl, rfl, rfl, rfl⟩

/-- C3 counterexample: the claimed iff fails at the empty required key — the
source's `if (!required) return true` guard fires on the falsy empty string,
so the check returns true for `k = ""` against the empty permission list,
while none of the claim's three membership conditions holds there. -/
theorem hasPermission_empty_key_true_without_membership :
    hasPermission [] (some "") = true ∧
    ¬(("" : String) ∈ ([] : List String) ∨
      (resourceOf "" ++ ".*") ∈ ([] : List String) ∨
      ("*" : String) ∈ ([] : List String)) :=
  ⟨rfl, by decide⟩

/-- C3 amended: for every nonempty required key `k`,
`hasPermission perms (some k)` is true exactly when `k` itself, the wildcard
`resourceOf k ++ ".*"`, or the global wildcard `"*"` is in the list; the
empty key is falsy in JavaScript and is allowed unconditionally, like an
absent key; in particular `documents.*` does not grant `users.view`. -/
theorem hasPermission_matching_rule (perms : List String) (k : String)
    (hk : k ≠ "") :
    (hasPermission perms (some k) = true ↔
      k ∈ perms ∨ (resourceOf k ++ ".*") ∈ perms ∨ "*" ∈ perms) ∧
    hasPermission perms (some "") = true ∧
    hasPermission ["documents.*"] (some "users.view") = false := by
  refine ⟨?_, by simp [hasPermission], by decide⟩
  simp only [hasPermission]
  have hk' : (k == "") = false := by simpa using hk
  simp only [hk', Bool.false_eq_true, if_false]
  split
  · simp_all
  · split
    · simp_all
    · split
      · simp_all
      · simp_all

/-- C3 witness: a concrete nonempty key, resolved through the resource
wildcard. -/
theorem hasPermission_matching_rule_witness :
    ("documents.view" : String) ≠ "" ∧
    ((hasPermission ["documents.*"] (some "documents.view") = true ↔
      "documents.view" ∈ ["documents.*"] ∨
      (resourceOf "documents.view" ++ ".*") ∈ ["documents.*"] ∨
      "*" ∈ ["documents.*"]) ∧
    hasPermission ["documents.*"] (some "") = true ∧
    hasPermission ["documents.*"] (some "users.view") = false) :=
  ⟨by decide,
   hasPermission_matching_rule ["documents.*"] "documents.view" (by decide)⟩

/-- C4: the claim says refresh fails with Unauthenticated when the session is
not found or already rotated.  The code consults no session store: a validly
signed, unexpired refresh token whose `sessionId` was never issued by any
login is accepted. -/
theorem refresh_ignores_session_state :
    rt4.payload.sessionId = "never-issued-session" ∧
    exceptOk (refreshAccessToken env1 db1 rt4) = true :=
  ⟨rfl, rfl⟩

/-- C6: the claim says logout revokes the session so that subsequent
refreshes with the old refresh token fail.  `AuthController.logout` only
clears the cookie and returns 200; it calls no service, and a refresh
presenting the pre-logout refresh token against the post-logout store still
succeeds. -/
theorem logout_clears_cookie_but_revokes_nothing :
    (controllerLogout db1).1.status = 200 ∧
    (controllerLogout db1).1.clearedCookie = some "refreshToken" ∧
    exceptOk (refreshAccessToken env1 (controllerLogout db1).2 rt1) = true :=
  ⟨rfl, rfl, rfl⟩

/-- C7 counterexample: with `NODE_ENV ≠ production` a successful login sets
the refresh cookie with `secure = false` and `SameSite=Lax`, not the claimed
Secure + SameSite=Strict. -/
theorem login_cookie_not_strict_in_dev :
    Except.map
        (fun p => (p.2.options.httpOnly, p.2.options.secure, p.2.options.sameSite))
        (controllerLogin env1 db1 false "alice@example.com" "pw-alice")
      = .ok (true, false, SameSite.lax) :=
  rfl

/-- C8 counterexample: a successful login of a user without a role issues an
access token whose payload has no `role` claim at all. -/
theorem access_token_missing_role_claim :
    Except.map (fun d => d.accessToken.payload.role)
        (login env8 db8 "carol@example.com" "pw-c") = .ok none :=
  rfl

/-- C9 counterexample: when the token's subject no longer exists in the
database, `JwtStrategy.validate` propagates `getUserById`'s
`NotFoundException` (404), not `UnauthorizedException` (401). -/
theorem jwt_validate_missing_user_gives_not_found :
    jwtStrategyValidate db1 ghostPayload = .error .notFound ∧
    HttpError.notFound ≠ HttpError.unauthenticated :=
  ⟨rfl, by decide⟩

/-- Computation lemma: login on an unknown email. -/
theorem login_eq_of_none (env : AuthEnv) (db : Db) (email password : String)
    (h : db.findByEmail email = none) :
    login env db email password = .error .unauthenticated := by
  simp [login, validateUser, h]

/-- Computation lemma: login for a non-active user. -/
theorem login_eq_of_inactive (env : AuthEnv) (db : Db)
    (email password : String) (u : User) (h : db.findByEmail email = some u)
    (hs : u.status ≠ UserStatus.active) :
    login env db email password = .error .unauthenticated := by
  simp [login, validateUser, h, hs]

/-- Computation lemma: login with a rejected password. -/
theorem login_eq_of_badpw (env : AuthEnv) (db : Db)
    (email password : String) (u : User) (h : db.findByEmail email = some u)
    (hs : u.status = UserStatus.active)
    (hb : env.bcryptCompare password u.password = false) :
    login env db email password = .error .unauthenticated := by
  simp [login, validateUser, h, hs, hb]

/-- Computation lemma: successful login. -/
theorem login_eq_of_ok (env : AuthEnv) (db : Db)
    (email password : String) (u : User) (h : db.findByEmail email = some u)
    (hs : u.status = UserStatus.active)
    (hb : env.bcryptCompare password u.password = true) :
    login env db email password =
      .ok
        { accessToken := generateAccessToken env u (resolvePermissions u)
          refreshToken := generateRefreshToken env u
          user :=
            { id := u.id
              email := u.email
              firstName := u.firstName
              lastName := u.lastName
              profileImage := u.profileImage
              role := u.role.map (fun r =>
                { id := r.id, name := r.name, displayName := r.displayName })
              permissions := resolvePermissions u } } := by
  simp [login, validateUser, h, hs, hb]

/-- Inversion: what a successful login implies. -/
theorem login_ok_elim (env : AuthEnv) (db : Db) (email password : String)
    (d : LoginData) (h : login env db email password = .ok d) :
    ∃ u, db.findByEmail email = some u ∧ u.status = UserStatus.active ∧
      env.bcryptCompare password u.password = true ∧
      d = { accessToken := generateAccessToken env u (resolvePermissions u)
            refreshToken := generateRefreshToken env u
            user :=
              { id := u.id
                email := u.email
                firstName := u.firstName
                lastName := u.lastName
                profileImage := u.profileImage
                role := u.role.map (fun r =>
                  { id := r.id, name := r.name, displayName := r.displayName })
                permissions := resolvePermissions u } } := by
  rcases hf : db.findByEmail email with _ | u
  · rw [login_eq_of_none env db email password hf] at h
    cases h
  · by_cases hs : u.status = UserStatus.active
    · by_cases hb : env.bcryptCompare password u.password = true
      · rw [login_eq_of_ok env db email password u hf hs hb] at h
        exact ⟨u, rfl, hs, hb, (Except.ok.inj h).symm⟩
      · have hb' : env.bcryptCompare password u.password = false := by
          simpa using hb
        rw [login_eq_of_badpw env db email password u hf hs hb'] at h
        cases h
    · rw [login_eq_of_inactive env db email password u hf hs] at h
      cases h

/-- C5: `login` fails — always with Unauthenticated — exactly when no
(non-deleted) user has the given email, the user's status is not active, or
the bcrypt comparison rejects the password; otherwise it succeeds and
returns the access token, refresh token and user data built for the matched
user. -/
theorem login_failure_iff_and_success (env : AuthEnv) (db : Db)
    (email password : String) :
    (exceptOk (login env db email password) = false ↔
      db.findByEmail email = none ∨
        ∃ u, db.findByEmail email = some u ∧
          (u.status ≠ UserStatus.active ∨
            env.bcryptCompare password u.password = false)) ∧
    (∀ e, login env db email password = .error e → e = .unauthenticated) ∧
    (∀ d, login env db email password = .ok d →
      ∃ u, db.findByEmail email = some u ∧ u.status = UserStatus.active ∧
        env.bcryptCompare password u.password = true ∧
        d.accessToken = generateAccessToken env u (resolvePermissions u) ∧
        d.refreshToken = generateRefreshToken env u ∧
        d.user.id = u.id ∧ d.user.email = u.email ∧
        d.user.permissions = resolvePermissions u) := by
  refine ⟨?_, ?_, ?_⟩
  · rcases h : db.findByEmail email with _ | u
    · rw [login_eq_of_none env db email password h]
      simp [exceptOk]
    · by_cases hs : u.status = UserStatus.active
      · by_cases hb : env.bcryptCompare password u.password = true
        · rw [login_eq_of_ok env db email password u h hs hb]
          simp [exceptOk, hs, hb]
        · have hb' : env.bcryptCompare password u.password = false := by
            simpa using hb
          rw [login_eq_of_badpw env db email password u h hs hb']
          simp [exceptOk, hb']
      · rw [login_eq_of_inactive env db email password u h hs]
        simp [exceptOk, hs]
  · intro e he
    rcases h : db.findByEmail email with _ | u
    · rw [login_eq_of_none env db email password h] at he
      exact (Except.error.inj he).symm
    · by_cases hs : u.status = UserStatus.active
      · by_cases hb : env.bcryptCompare password u.password = true
        · rw [login_eq_of_ok env db email password u h hs hb] at he
          cases he
        · have hb' : env.bcryptCompare password u.password = false := by
            simpa using hb
          rw [login_eq_of_badpw env db email password u h hs hb'] at he
          exact (Except.error.inj he).symm
      · rw [login_eq_of_inactive env db email password u h hs] at he
        exact (Except.error.inj he).symm
  · intro d hd
    obtain ⟨u, hf, hs, hb, hdv⟩ := login_ok_elim env db email password d hd
    subst hdv
    exact ⟨u, hf, hs, hb, rfl, rfl, rfl, rfl, rfl⟩

/-- C5 witness: a concrete successful login for `alice`. -/
theorem login_failure_iff_and_success_witness :
    login env1 db1 "alice@example.com" "pw-alice" = .ok loginData1 ∧
    ∃ u, db1.findByEmail "alice@example.com" = some u ∧
      u.status = UserStatus.active ∧
      env1.bcryptCompare "pw-alice" u.password = true ∧
      loginData1.accessToken = generateAccessToken env1 u (resolvePermissions u) ∧
      loginData1.refreshToken = generateRefreshToken env1 u ∧
      loginData1.user.id = u.id ∧ loginData1.user.email = u.email ∧
      loginData1.user.permissions = resolvePermissions u :=
  ⟨rfl,
   (login_failure_iff_and_success env1 db1 "alice@example.com" "pw-alice").2.2
     loginData1 rfl⟩

/-- C7 amended: on every successful `POST /auth/login`, the refresh token is
delivered only via the `refreshToken` cookie, whose attributes are HttpOnly
always, `secure = (NODE_ENV = production)` and `SameSite=Strict` in
production but `SameSite=Lax` otherwise; the body is exactly
`{accessToken, user}` with the refresh token destructured away. -/
theorem login_cookie_attributes (env : AuthEnv) (db : Db) (production : Bool)
    (email password : String) (body : LoginBody) (cookie : SetCookie)
    (h : controllerLogin env db production email password = .ok (body, cookie)) :
    cookie.name = "refreshToken" ∧
    cookie.options.httpOnly = true ∧
    cookie.options.secure = production ∧
    cookie.options.sameSite = (if production then SameSite.strict else SameSite.lax) ∧
    cookie.options.maxAgeMs = 7 * 24 * 60 * 60 * 1000 ∧
    ∃ d, login env db email password = .ok d ∧
      body.accessToken = d.accessToken ∧ body.user = d.user ∧
      cookie.value = d.refreshToken := by
  unfold controllerLogin at h
  rcases hl : login env db email password with e | d <;> rw [hl] at h
  · cases h
  · simp only [Except.ok.injEq, Prod.mk.injEq] at h
    obtain ⟨hbody, hcookie⟩ := h
    subst hbody
    subst hcookie
    exact ⟨rfl, rfl, rfl, rfl, rfl, d, rfl, rfl, rfl, rfl⟩

/-- C7 witness: the production-mode login for `alice`, where the cookie is
Secure and SameSite=Strict. -/
theorem login_cookie_attributes_witness :
    controllerLogin env1 db1 true "alice@example.com" "pw-alice"
        = .ok (c7pair.1, c7pair.2) ∧
    c7pair.2.name = "refreshToken" ∧
    c7pair.2.options.httpOnly = true ∧
    c7pair.2.options.secure = true ∧
    c7pair.2.options.sameSite = SameSite.strict := by
  have h := login_cookie_attributes env1 db1 true "alice@example.com"
    "pw-alice" c7pair.1 c7pair.2 rfl
  exact ⟨rfl, h.1, h.2.1, h.2.2.1, by simpa using h.2.2.2.1⟩

/-- A verified JWT's returned payload is the token's payload. -/
theorem jwtVerify_some {P : Type} (expOf : P → Option Nat) (env : AuthEnv)
    (t : SignedToken P) (p : P) (h : jwtVerify expOf env t = some p) :
    p = t.payload := by
  unfold jwtVerify at h
  split at h
  · exact (Option.some.inj h).symm
  · cases h

/-- Computation lemma: refresh with a token failing verification. -/
theorem refresh_eq_of_badtoken (env : AuthEnv) (db : Db)
    (t : SignedToken RefreshTokenPayload)
    (hv : jwtVerify (fun p => p.exp) env t = none) :
    refreshAccessToken env db t = .error .unauthenticated := by
  simp [refreshAccessToken, hv]

/-- Computation lemma: refresh when the token's subject is not stored. -/
theorem refresh_eq_of_usergone (env : AuthEnv) (db : Db)
    (t : SignedToken RefreshTokenPayload)
    (hv : jwtVerify (fun p => p.exp) env t = some t.payload)
    (hf : db.findById t.payload.sub = none) :
    refreshAccessToken env db t = .error .unauthenticated := by
  simp [refreshAccessToken, hv, hf]

/-- Computation lemma: refresh for a non-active user. -/
theorem refresh_eq_of_inactiveuser (env : AuthEnv) (db : Db)
    (t : SignedToken RefreshTokenPayload) (u : User)
    (hv : jwtVerify (fun p => p.exp) env t = some t.payload)
    (hf : db.findById t.payload.sub = some u)
    (hs : u.status ≠ UserStatus.active) :
    refreshAccessToken env db t = .error .unauthenticated := by
  simp [refreshAccessToken, hv, hf, hs]

/-- Computation lemma: successful refresh. -/
theorem refresh_eq_of_user (env : AuthEnv) (db : Db)
    (t : SignedToken RefreshTokenPayload) (u : User)
    (hv : jwtVerify (fun p => p.exp) env t = some t.payload)
    (hf : db.findById t.payload.sub = some u)
    (hs : u.status = UserStatus.active) :
    refreshAccessToken env db t
      = .ok (generateAccessToken env u (resolvePermissions u)) := by
  simp [refreshAccessToken, hv, hf, hs]

/-- Inversion: what a successful refresh implies. -/
theorem refresh_ok_elim (env : AuthEnv) (db : Db)
    (t : SignedToken RefreshTokenPayload) (a : SignedToken JwtPayload)
    (h : refreshAccessToken env db t = .ok a) :
    ∃ u, db.findById t.payload.sub = some u ∧
      u.status = UserStatus.active ∧
      a = generateAccessToken env u (resolvePermissions u) := by
  rcases hv : jwtVerify (fun p => p.exp) env t with _ | p
  · rw [refresh_eq_of_badtoken env db t hv] at h
    cases h
  · have hp : p = t.payload := jwtVerify_some _ env t p hv
    subst hp
    rcases hf : db.findById t.payload.sub with _ | u
    · rw [refresh_eq_of_usergone env db t hv hf] at h
      cases h
    · by_cases hs : u.status = UserStatus.active
      · rw [refresh_eq_of_user env db t u hv hf hs] at h
        exact ⟨u, rfl, hs, (Except.ok.inj h).symm⟩
      · rw [refresh_eq_of_inactiveuser env db t u hv hf hs] at h
        cases h

/-- C8 amended: an access token issued at login carries `sub`, `email`,
`permissions`, `iat` and `exp`, and the `role:{id,name}` claim exactly when
the user has a role (it is absent otherwise); an access token issued at
refresh carries the same claims for the user of the verified token's `sub`;
the refresh token issued at login carries `sub`, `sessionId`, `iat`, `exp`. -/
theorem issued_token_claims (env : AuthEnv) (db : Db) :
    (∀ email password d, login env db email password = .ok d →
      ∃ u, db.findByEmail email = some u ∧
        d.accessToken.payload.sub = u.id ∧
        d.accessToken.payload.email = u.email ∧
        d.accessToken.payload.role
          = u.role.map (fun r => { id := r.id, name := r.name }) ∧
        d.accessToken.payload.permissions = resolvePermissions u ∧
        d.accessToken.payload.iat = some env.now ∧
        d.accessToken.payload.exp = some (env.now + env.accessExpiry) ∧
        d.refreshToken.payload.sub = u.id ∧
        d.refreshToken.payload.sessionId = env.freshSessionId ∧
        d.refreshToken.payload.iat = some env.now ∧
        d.refreshToken.payload.exp = some (env.now + env.refreshExpiry)) ∧
    (∀ (t : SignedToken RefreshTokenPayload) (a : SignedToken JwtPayload),
      refreshAccessToken env db t = .ok a →
      ∃ u, db.findById t.payload.sub = some u ∧
        a.payload.sub = u.id ∧
        a.payload.email = u.email ∧
        a.payload.role = u.role.map (fun r => { id := r.id, name := r.name }) ∧
        a.payload.permissions = resolvePermissions u ∧
        a.payload.iat = some env.now ∧
        a.payload.exp = some (env.now + env.accessExpiry)) := by
  constructor
  · intro email password d h
    obtain ⟨u, hf, hs, hb, hdv⟩ := login_ok_elim env db email password d h
    subst hdv
    exact ⟨u, hf, by simp [generateAccessToken, generateRefreshToken]⟩
  · intro t a h
    obtain ⟨u, hf, hs, ha⟩ := refresh_ok_elim env db t a h
    subst ha
    exact ⟨u, hf, by simp [generateAccessToken]⟩

/-- C8 witness: `alice`'s login, where every listed claim is present and the
role claim is `{id, name}` of her role. -/
theorem issued_token_claims_witness :
    login env1 db1 "alice@example.com" "pw-alice" = .ok loginData1 ∧
    ∃ u, db1.findByEmail "alice@example.com" = some u ∧
      loginData1.accessToken.payload.sub = u.id ∧
      loginData1.accessToken.payload.email = u.email ∧
      loginData1.accessToken.payload.role
        = u.role.map (fun r => { id := r.id, name := r.name }) ∧
      loginData1.accessToken.payload.permissions = resolvePermissions u ∧
      loginData1.accessToken.payload.iat = some env1.now ∧
      loginData1.accessToken.payload.exp = some (env1.now + env1.accessExpiry) ∧
      loginData1.refreshToken.payload.sub = u.id ∧
      loginData1.refreshToken.payload.sessionId = env1.freshSessionId ∧
      loginData1.refreshToken.payload.iat = some env1.now ∧
      loginData1.refreshToken.payload.exp = some (env1.now + env1.refreshExpiry) :=
  ⟨rfl,
   (issued_token_claims env1 db1).1 "alice@example.com" "pw-alice" loginData1 rfl⟩

/-- C9 amended: `JwtStrategy.validate` re-loads the user on every request and
rejects a vanished user with NotFound (404) and a non-active user with
Unauthenticated (401); on success the attached request user carries the
permission snapshot of the token payload, not the database's. -/
theorem jwt_validate_behaviour (db : Db) (payload : JwtPayload) :
    (db.findById payload.sub = none →
      jwtStrategyValidate db payload = .error .notFound) ∧
    (∀ u, db.findById payload.sub = some u → u.status ≠ UserStatus.active →
      jwtStrategyValidate db payload = .error .unauthenticated) ∧
    (∀ u, db.findById payload.sub = some u → u.status = UserStatus.active →
      jwtStrategyValidate db payload =
        .ok { id := payload.sub, email := payload.email, role := payload.role,
              permissions := payload.permissions }) := by
  refine ⟨?_, ?_, ?_⟩
  · intro h
    simp [jwtStrategyValidate, getUserById, h]
  · intro u h hs
    simp [jwtStrategyValidate, getUserById, h, hs]
  · intro u h hs
    simp [jwtStrategyValidate, getUserById, h, hs]

/-- C9 witness: `alice` is active, and a token carrying a stale permission
snapshot is accepted with exactly that snapshot attached. -/
theorem jwt_validate_behaviour_witness :
    db1.findById 1 = some alice ∧ alice.status = UserStatus.active ∧
    jwtStrategyValidate db1 stalePayload =
      .ok { id := 1, email := "alice@example.com"
            role := some { id := 3, name := "staff" }
            permissions := ["stale.permission"] } :=
  ⟨rfl, rfl, (jwt_validate_behaviour db1 stalePayload).2.2 alice rfl rfl⟩

/-- After replacing the record found by id with an updated record carrying
the same id and delete marker, the lookup finds exactly the updated record
(ids being unique, as the primary key guarantees). -/
theorem find_after_replace (l : List User) (i : Nat) (u u' : User)
    (hp : l.Pairwise (fun a b => a.id ≠ b.id))
    (hf : l.find? (fun v => v.deletedAt.isNone && v.id == i) = some u)
    (hid : u'.id = u.id) (hdel : u'.deletedAt = u.deletedAt) :
    (l.map (fun v => if v.id == u'.id then u' else v)).find?
        (fun v => v.deletedAt.isNone && v.id == i) = some u' := by
  induction l with
  | nil => cases hf
  | cons w l ih =>
    rw [List.pairwise_cons] at hp
    obtain ⟨hw, hp⟩ := hp
    by_cases hpw : (w.deletedAt.isNone && w.id == i) = true
    · have hu : u = w := by
        rw [List.find?_cons_of_pos
          (p := fun v : User => v.deletedAt.isNone && v.id == i) l hpw] at hf
        exact (Option.some.inj hf).symm
      have hcond : (w.id == u'.id) = true := by
        simp [hid, hu]
      have hpu : (u'.deletedAt.isNone && u'.id == i) = true := by
        rw [hdel, hid, hu]
        exact hpw
      rw [List.map_cons, if_pos hcond]
      exact List.find?_cons_of_pos
        (p := fun v : User => v.deletedAt.isNone && v.id == i) _ hpu
    · rw [List.find?_cons_of_neg
        (p := fun v : User => v.deletedAt.isNone && v.id == i) l hpw] at hf
      have hmem : u ∈ l := List.mem_of_find?_eq_some hf
      have hnot : ¬((w.id == u'.id) = true) := by
        have hne : w.id ≠ u.id := hw u hmem
        simp [hid, hne]
      rw [List.map_cons, if_neg hnot]
      rw [List.find?_cons_of_neg
        (p := fun v : User => v.deletedAt.isNone && v.id == i) _ hpw]
      exact ih hp hf

/-- C10: under the primary-key uniqueness of user ids, `updateProfile`
(1) fails with Conflict and leaves the store untouched when a truthy
requested email differs from the user's and already belongs to a stored
user, and (2) on success modifies only `firstName`, `lastName`, `email` and
`updatedAt` of the target user — `password`, `status`, `role`,
`profileImage`, `createdAt`, `deletedAt` are unchanged — and leaves every
other user record as it was. -/
theorem updateProfile_frame_and_conflict (db : Db) (now userId : Nat)
    (dto : UpdateProfileDto)
    (hids : db.users.Pairwise (fun a b => a.id ≠ b.id)) :
    (∀ u e, db.findById userId = some u → dto.email = some e → e ≠ "" →
      e ≠ u.email → (db.findByEmail e).isSome = true →
      updateProfile db now userId dto = (.error .conflict, db)) ∧
    (∀ u' db', updateProfile db now userId dto = (.ok u', db') →
      ∃ u, db.findById userId = some u ∧
        u'.id = u.id ∧ u'.password = u.password ∧ u'.status = u.status ∧
        u'.role = u.role ∧ u'.profileImage = u.profileImage ∧
        u'.createdAt = u.createdAt ∧ u'.deletedAt = u.deletedAt ∧
        u'.firstName = dto.firstName.getD u.firstName ∧
        u'.lastName = dto.lastName.getD u.lastName ∧
        u'.email = dto.email.getD u.email ∧
        u'.updatedAt = now ∧
        db'.users = db.users.map (fun v => if v.id == u.id then u' else v)) := by
  constructor
  · intro u e hu he hne hneu hsome
    have hcond : (truthyStr dto.email && !(dto.email == some u.email)
        && (db.findByEmail (dto.email.getD "")).isSome) = true := by
      simp [he, truthyStr, hne, hneu, hsome]
    simp [updateProfile, hu, hcond]
  · intro u' db' h
    rcases hu : db.findById userId with _ | u
    · simp [updateProfile, hu] at h
    · by_cases hcond : (truthyStr dto.email && !(dto.email == some u.email)
          && (db.findByEmail (dto.email.getD "")).isSome) = true
      · simp [updateProfile, hu, hcond] at h
      · have hconf : (truthyStr dto.email && !(dto.email == some u.email)
            && (db.findByEmail (dto.email.getD "")).isSome) = false := by
          simpa using hcond
        have hfind2 : Db.findById
            { users := db.users.map (fun v =>
                if v.id == u.id then
                  { u with
                    firstName := dto.firstName.getD u.firstName
                    lastName := dto.lastName.getD u.lastName
                    email := dto.email.getD u.email
                    updatedAt := now }
                else v) } userId
            = some { u with
                firstName := dto.firstName.getD u.firstName
                lastName := dto.lastName.getD u.lastName
                email := dto.email.getD u.email
                updatedAt := now } :=
          find_after_replace db.users userId u
            { u with
              firstName := dto.firstName.getD u.firstName
              lastName := dto.lastName.getD u.lastName
              email := dto.email.getD u.email
              updatedAt := now } hids hu rfl rfl
        have hrun : updateProfile db now userId dto
            = (.ok ({ u with
                  firstName := dto.firstName.getD u.firstName
                  lastName := dto.lastName.getD u.lastName
                  email := dto.email.getD u.email
                  updatedAt := now } : User),
               { users := db.users.map (fun v =>
                  if v.id == u.id then
                    { u with
                      firstName := dto.firstName.getD u.firstName
                      lastName := dto.lastName.getD u.lastName
                      email := dto.email.getD u.email
                      updatedAt := now }
                  else v) }) := by
          simp only [updateProfile, hu, hconf, Bool.false_eq_true, if_false]
          rw [hfind2]
        rw [hrun] at h
        simp only [Prod.mk.injEq, Except.ok.injEq] at h
        obtain ⟨hu', hdb'⟩ := h
        subst hu'
        subst hdb'
        exact ⟨u, rfl, rfl, rfl, rfl, rfl, rfl, rfl, rfl, rfl, rfl, rfl, rfl,
          rfl⟩

/-- C10 witness: `dave`'s profile update changes his first name and email,
leaves every other field and `erin`'s record untouched. -/
theorem updateProfile_frame_and_conflict_witness :
    updateProfile db10 77 10 dto10 = (.ok updExpected, db10') ∧
    ∃ u, db10.findById 10 = some u ∧
      updExpected.id = u.id ∧ updExpected.password = u.password ∧
      updExpected.status = u.status ∧ updExpected.role = u.role ∧
      updExpected.profileImage = u.profileImage ∧
      updExpected.createdAt = u.createdAt ∧
      updExpected.deletedAt = u.deletedAt ∧
      updExpected.firstName = dto10.firstName.getD u.firstName ∧
      updExpected.lastName = dto10.lastName.getD u.lastName ∧
      updExpected.email = dto10.email.getD u.email ∧
      updExpected.updatedAt = 77 ∧
      db10'.users = db10.users.map (fun v =>
        if v.id == u.id then updExpected else v) :=
  ⟨rfl,
   (updateProfile_frame_and_conflict db10 77 10 dto10 (by decide)).2
     updExpected db10' rfl⟩

end DocManager
